import Mathlib

/-!
Shallow embedding of `main.py` (CryptoPanic → summarizer → Telegram worker),
for checking the specification's claims against the code.

External effects (HTTP responses, the summarizer, the image model, file
writes) are supplied as explicit oracle arguments; each embedded function
mirrors the control flow of the corresponding Python function, with line
references given in the doc comments.  Python strings are Lean `String`s,
but every string operation used is implemented structurally over
`String.toList` so that concrete runs reduce inside the kernel.
-/

/-- A JSON-like Python value, as produced by `json.loads` (numbers are
modelled as integers; no claim depends on floats). -/
inductive PyJson where
  | null
  | bool (b : Bool)
  | num (n : Int)
  | str (s : String)
  | arr (xs : List PyJson)
  | dict (kvs : List (String × PyJson))

/-- Python exception classes that can escape `process_once` in the model. -/
inductive PyErr where
  | attributeError
  | typeError
  deriving DecidableEq

/-- Python truthiness (`if x:`) of a JSON-like value: `None`, `False`, `0`,
`""`, `[]` and `{}` are falsy. -/
def pyTruthyJ : PyJson → Bool
  | .null => false
  | .bool b => b
  | .num n => n != 0
  | .str s => s != ""
  | .arr xs => !xs.isEmpty
  | .dict kvs => !kvs.isEmpty

/-- Model of Python `str()` as used in f-string interpolation; the rendering
of composite values is abbreviated (no claim inspects it). -/
def pyStrOf : PyJson → String
  | .str s => s
  | .null => "None"
  | .bool true => "True"
  | .bool false => "False"
  | .num n => toString n
  | .arr _ => "<list>"
  | .dict _ => "<dict>"

/-- Python `d.get(key, default)`; raises `AttributeError` when the receiver
is not a dict (as `j.get(...)` does in `process_once`, main.py:344-346). -/
def pyDictGet (j : PyJson) (key : String) (dflt : PyJson) : Except PyErr PyJson :=
  match j with
  | .dict kvs => .ok ((kvs.lookup key).getD dflt)
  | _ => .error .attributeError

/-- Python slicing `s[:n]` on characters, structural so it kernel-reduces. -/
def pyStrSlice (s : String) (n : Nat) : String :=
  String.mk (s.toList.take n)

/-- Python `v[:n]`: defined for strings and lists, `TypeError` otherwise
(as `j.get("caption", title)[:120]` can raise in main.py:345). -/
def pySliceTo (v : PyJson) (n : Nat) : Except PyErr PyJson :=
  match v with
  | .str s => .ok (.str (pyStrSlice s n))
  | .arr xs => .ok (.arr (xs.take n))
  | _ => .error .typeError

/-- Python `s.strip()` (whitespace strip). -/
def pyStrip (s : String) : String :=
  String.mk (((s.toList.dropWhile Char.isWhitespace).reverse.dropWhile
      Char.isWhitespace).reverse)

/-- Digits of a decimal literal; `none` on empty input or a non-digit. -/
def parseDigits : List Char → Option Nat
  | [] => none
  | cs =>
    cs.foldl
      (fun acc c =>
        match acc with
        | none => none
        | some a => if c.isDigit then some (a * 10 + (c.toNat - 48)) else none)
      (some 0)

/-- Model of Python `int(s)`: optional surrounding whitespace, optional sign,
decimal digits (digit-group underscores are not modelled; no claim uses
them). -/
def pyIntParse (s : String) : Option Int :=
  match (pyStrip s).toList with
  | [] => none
  | c :: rest =>
    if c = Char.ofNat 45 then (parseDigits rest).map (fun n => -(n : Int))
    else if c = Char.ofNat 43 then (parseDigits rest).map (fun n => (n : Int))
    else (parseDigits (c :: rest)).map (fun n => (n : Int))

/-- Python `a or b` on optional strings: `None` and `""` are falsy. -/
def pyOrStr (a : Option String) (b : String) : String :=
  match a with
  | some s => if s = "" then b else s
  | none => b

/-- An article object from the feed, with the fields `process_once` reads
(main.py:329, 336-338); absent keys are `none`.  Identifiers are modelled as
strings (the code applies `str(...)` to the raw value). -/
structure Article where
  id : Option String
  uuid : Option String
  url : Option String
  title : Option String
  body : Option String
  excerpt : Option String
  deriving DecidableEq

/-- The identifier computed at main.py:329:
`str(item.get("id") or item.get("uuid") or item.get("url") or "")`. -/
def deriveId (it : Article) : String :=
  pyOrStr it.id (pyOrStr it.uuid (pyOrStr it.url ""))

/- ------------------------------------------------------------------ -/
/- Seen-set persistence (main.py:91-120)                              -/
/- ------------------------------------------------------------------ -/

/-- In-memory insert of Python `set.add` on the `SEEN` set, represented as a
duplicate-free list. -/
def seenAdd (nid : String) (l : List String) : List String :=
  if l.contains nid then l else nid :: l

/-- State of the file backend: the in-memory `SEEN` set and the contents of
the persisted file `/tmp/seen_ids.json`. -/
structure SeenStore where
  mem : List String
  fileContents : List String
  deriving DecidableEq

/-- File-backend `is_seen` (main.py:111): membership in the in-memory set. -/
def is_seen_file (st : SeenStore) (nid : String) : Bool :=
  st.mem.contains nid

/-- File-backend `mark_seen` (main.py:112-118): add to the in-memory set,
then rewrite the whole file; `writeOk` is the outcome of the `json.dump`
write, whose failure is caught and logged, leaving the file untouched. -/
def mark_seen (writeOk : Bool) (nid : String) (st : SeenStore) : SeenStore :=
  let m2 := seenAdd nid st.mem
  { mem := m2, fileContents := if writeOk then m2 else st.fileContents }

/-- The two interchangeable seen-set backends selected at startup
(main.py:93-111): Redis, whose membership test is a direct client call, or
the local file with its in-memory set. -/
inductive SeenBackend where
  | redisB (sismember : String → Except Unit Bool)
  | fileB (seenMem : List String)

/-- `is_seen` over either backend: the Redis variant (main.py:96) forwards
the unguarded `redis_client.sismember` call, whose error outcome (a raised
connection error) propagates; the file variant (main.py:111) is a pure
membership test. -/
def is_seen (backend : SeenBackend) (nid : String) : Except Unit Bool :=
  match backend with
  | .redisB f => f nid
  | .fileB s => .ok (s.contains nid)

/- ------------------------------------------------------------------ -/
/- Feed fetcher: fetch_news_with_backoff (main.py:123-187)            -/
/- ------------------------------------------------------------------ -/

/-- Parse outcome of the body of a successful feed response
(`r.json()` and the shape dispatch at main.py:158-159): `invalid` means
`r.json()` raised (handled by the generic except at main.py:181-185);
`list` is a bare JSON array; `obj` is an object whose optional `results`
key defaults to `[]`. -/
inductive FetchBody where
  | invalid
  | list (xs : List Article)
  | obj (results : Option (List Article))
  deriving DecidableEq

/-- One HTTP attempt's outcome as seen by `fetch_news_with_backoff`: a
transport-level exception (timeout, connection failure) or a response with
a status, an optional `Retry-After` header and a body. -/
inductive FetchResp where
  | transportError
  | resp (status : Nat) (retryAfter : Option String) (body : FetchBody)
  deriving DecidableEq

/-- Whether a slept delay came from a parsed `Retry-After` header or from
the current exponential-backoff value. -/
inductive SleepKind where
  | backoffKind
  | retryAfterKind
  deriving DecidableEq

/-- One `time.sleep` performed between attempts. -/
structure SleepEv where
  kind : SleepKind
  secs : Int
  deriving DecidableEq

/-- Result of one iteration of the fetch loop body: either retry (after the
recorded sleep, with the updated backoff; the attempt counter increments),
or return a final list of results. -/
inductive StepRes where
  | retry (ev : SleepEv) (newBackoff : Nat)
  | done (results : List Article)
  deriving DecidableEq

/-- One iteration of the `while` body of `fetch_news_with_backoff`
(main.py:140-185), given the current backoff and the attempt's outcome:
  * 429 (main.py:143-156): sleep the parsed `Retry-After` when the header is
    truthy and parses as a nonnegative integer — `time.sleep` of a negative
    value raises `ValueError`, which falls to the generic handler at
    main.py:181-185 and sleeps the backoff instead — otherwise sleep the
    backoff; either way double the backoff, capped at 300;
  * `raise_for_status` (main.py:157) raises for 400 ≤ status < 600, handled
    at main.py:164-180: 429 (dead fallback) and 5xx retry with a backoff
    sleep, other HTTP errors return `[]` immediately;
  * otherwise parse the body (main.py:158-163): an unparseable body raises,
    handled by the generic except (retry); empty results return `[]`;
    otherwise return the first `limit` results. -/
def fetchStep (limit backoff : Nat) (r : FetchResp) : StepRes :=
  match r with
  | .transportError => .retry ⟨.backoffKind, (backoff : Int)⟩ (min 300 (backoff * 2))
  | .resp status retry_after body =>
    if status = 429 then
      match retry_after with
      | some s =>
        if s = "" then .retry ⟨.backoffKind, (backoff : Int)⟩ (min 300 (backoff * 2))
        else
          match pyIntParse s with
          | some n =>
            if 0 ≤ n then .retry ⟨.retryAfterKind, n⟩ (min 300 (backoff * 2))
            else .retry ⟨.backoffKind, (backoff : Int)⟩ (min 300 (backoff * 2))
          | none => .retry ⟨.backoffKind, (backoff : Int)⟩ (min 300 (backoff * 2))
      | none => .retry ⟨.backoffKind, (backoff : Int)⟩ (min 300 (backoff * 2))
    else if 400 ≤ status ∧ status < 600 then
      if status = 429 then .retry ⟨.backoffKind, (backoff : Int)⟩ (min 300 (backoff * 2))
      else if 500 ≤ status then .retry ⟨.backoffKind, (backoff : Int)⟩ (min 300 (backoff * 2))
      else .done []
    else
      match body with
      | .invalid => .retry ⟨.backoffKind, (backoff : Int)⟩ (min 300 (backoff * 2))
      | .list xs => if xs.isEmpty then .done [] else .done (xs.take limit)
      | .obj results =>
        let xs := results.getD []
        if xs.isEmpty then .done [] else .done (xs.take limit)

/-- Observable outcome of a fetch: the returned results, the sleeps
performed, the number of HTTP attempts issued, and whether the loop exited
by exhausting `max_attempts` (main.py:186-187). -/
structure FetchOut where
  results : List Article
  sleeps : List SleepEv
  calls : Nat
  exhausted : Bool
  deriving DecidableEq

/-- The `while attempt < max_attempts` loop of `fetch_news_with_backoff`
(main.py:140-187), fuelled structurally: `fuel = max_attempts - attempt`,
so the loop guard `attempt < max_attempts` is `fuel > 0`.  `env i` is the
outcome of the HTTP attempt issued when the counter equals `i`. -/
def fetchGo (env : Nat → FetchResp) (limit : Nat) :
    Nat → Nat → Nat → List SleepEv → FetchOut
  | 0, attempt, _backoff, sleeps => ⟨[], sleeps, attempt, true⟩
  | fuel + 1, attempt, backoff, sleeps =>
    match fetchStep limit backoff (env attempt) with
    | .done rs => ⟨rs, sleeps, attempt + 1, false⟩
    | .retry ev nb => fetchGo env limit fuel (attempt + 1) nb (sleeps ++ [ev])

/-- `fetch_news_with_backoff(limit, max_attempts)` (main.py:123-187):
returns `[]` without any attempt when the CryptoPanic key is missing
(main.py:128-130); otherwise runs the loop starting at attempt 0 with an
initial backoff of 2 seconds (main.py:138-139). -/
def fetch_news_with_backoff (keyPresent : Bool) (env : Nat → FetchResp)
    (limit maxAttempts : Nat) : FetchOut :=
  if keyPresent then fetchGo env limit maxAttempts 0 2 []
  else ⟨[], [], 0, false⟩

/-- Attempt outcomes that the fetch loop retries after (429, 5xx, transport
errors, unparseable bodies); every other outcome makes the loop return. -/
def retryableB : FetchResp → Bool
  | .transportError => true
  | .resp status _ body =>
    if status = 429 then true
    else if 400 ≤ status ∧ status < 600 then decide (500 ≤ status)
    else
      match body with
      | .invalid => true
      | _ => false

/- ------------------------------------------------------------------ -/
/- Article enricher: ask_chatgpt_for_json (main.py:189-230)           -/
/- ------------------------------------------------------------------ -/

/-- The character `\x7b` (opening curly brace). -/
def lbrace : Char := Char.ofNat 123

/-- The character `\x7d` (closing curly brace). -/
def rbrace : Char := Char.ofNat 125

/-- The JSON-substring extraction of main.py:218-220: locate the first
opening brace (`txt.find`), the last closing brace (`txt.rfind`), and when
both exist with `end > start` return the inclusive slice
`txt[start:end+1]`. -/
def braceSlice (s : String) : Option String :=
  let cs := s.toList
  match cs.findIdx? (fun c => c == lbrace), cs.reverse.findIdx? (fun c => c == rbrace) with
  | some st, some rE =>
    let en := cs.length - 1 - rE
    if st < en then some (String.mk ((cs.drop st).take (en - st + 1))) else none
  | _, _ => none

/-- The deterministic fallback used when the summarizer call itself fails or
the API key is missing (main.py:196 and main.py:230): summary is
`"{title} — read more: {url}"`, caption is `title[:120]`, image prompt is
`{"scene": title}`. -/
def enrich_fallback (title url : String) : PyJson :=
  .dict [("summary", .str (title ++ " — read more: " ++ url)),
         ("caption", .str (pyStrSlice title 120)),
         ("image_prompt", .dict [("scene", .str title)])]

/-- The fallback used when the response text is not parseable JSON and no
brace slice parses (main.py:227): summary is the raw text capped at 800
characters, caption is `title[:120]`, image prompt is `{"scene": title}`. -/
def enrich_text_fallback (txt title : String) : PyJson :=
  .dict [("summary", .str (pyStrSlice txt 800)),
         ("caption", .str (pyStrSlice title 120)),
         ("image_prompt", .dict [("scene", .str title)])]

/-- `ask_chatgpt_for_json(title, url, excerpt)` (main.py:189-230).  `jloads`
is the model of `json.loads` (`none` = raises); `chat` is the outcome of the
`openai.ChatCompletion.create` call (`error` = the call raised, `ok content`
= the returned message text).  The prompt strings built at main.py:198-203
are not modelled: the response is an oracle.  Whatever `json.loads`
returns — dict or not — is returned unchecked (main.py:214-215, 222-223). -/
def ask_chatgpt_for_json (openaiKeySet : Bool)
    (jloads : String → Option PyJson) (chat : Except Unit String)
    (title url _excerpt : String) : PyJson :=
  if openaiKeySet = false then enrich_fallback title url
  else
    match chat with
    | .error _ => enrich_fallback title url
    | .ok content =>
      let txt := pyStrip content
      match jloads txt with
      | some j => j
      | none =>
        match braceSlice txt with
        | some sub =>
          match jloads sub with
          | some j => j
          | none => enrich_text_fallback txt title
        | none => enrich_text_fallback txt title

/- ------------------------------------------------------------------ -/
/- Image generation: generate_image_via_gemini (main.py:232-270)      -/
/- ------------------------------------------------------------------ -/

/-- The prompt serialization of main.py:240-246: a dict becomes
`"key: value | key: value..."`, anything else is `str(prompt_obj)`. -/
def gemini_prompt_text : PyJson → String
  | .dict kvs => String.intercalate " | " (kvs.map (fun kv => kv.1 ++ ": " ++ pyStrOf kv.2))
  | v => pyStrOf v

/-- `generate_image_via_gemini(prompt_obj)` (main.py:232-270): `none` when
the client is unconfigured (main.py:236-238); otherwise the bytes the
guarded response inspection would extract.  The candidate/part walk and
data-URI decoding (main.py:253-269) are collapsed into `callResult`, whose
`none` covers a raised call, an unexpected shape, and the no-image case —
every such path returns `None` rather than raising. -/
def generate_image_via_gemini (clientOk : Bool) (callResult : Option (List Nat))
    (prompt_obj : PyJson) : Option (List Nat) :=
  if clientOk = false then none
  else
    let _prompt_text := gemini_prompt_text prompt_obj
    callResult

/- ------------------------------------------------------------------ -/
/- Publisher: post_to_telegram (main.py:272-300)                      -/
/- ------------------------------------------------------------------ -/

/-- Python truthiness of optional bytes (`if image_bytes:`): `None` and
empty bytes are falsy. -/
def pyBytesTruthy : Option (List Nat) → Bool
  | none => false
  | some bs => !bs.isEmpty

/-- Outcome of one `requests.post` to the Telegram API: a transport-level
exception, or a response with a status and the parse outcome of its body
(`none` = `r.json()` raises). -/
inductive HttpBeh where
  | transportError
  | resp (status : Nat) (body : Option PyJson)

/-- `post_to_telegram(image_bytes, caption)` (main.py:272-300).  Missing
credentials return `None` without a network call (main.py:277-279); the
photo/text endpoint choice (main.py:282-290) does not affect the result
handling; `raise_for_status` (main.py:292) turns any 400-599 status into
`None` via the HTTPError handler (main.py:295-297); a body that does not
parse as JSON makes `r.json()` raise, caught at main.py:298-300, returning
`None`; otherwise the parsed JSON is returned (note a body of `null` parses
to Python `None`, indistinguishable from failure — `.null` models both). -/
def post_to_telegram (credsOk : Bool) (image_bytes : Option (List Nat))
    (http : HttpBeh) : PyJson :=
  if credsOk = false then .null
  else
    let _endpoint := if pyBytesTruthy image_bytes then "sendPhoto" else "sendMessage"
    match http with
    | .transportError => .null
    | .resp status body =>
      if 400 ≤ status ∧ status < 600 then .null
      else
        match body with
        | none => .null
        | some v => v

/- ------------------------------------------------------------------ -/
/- Cycle orchestrator: process_once (main.py:319-369)                 -/
/- ------------------------------------------------------------------ -/

/-- Side-effecting calls made while processing one batch, tagged with the
position of the article that caused them. -/
inductive Event where
  | enrichCall (idx : Nat)
  | imageCall (idx : Nat)
  | postCall (idx : Nat) (res : PyJson)
  | markSeen (idx : Nat) (nid : String)

/-- Startup configuration relevant to a cycle: which credentials are set and
the fetch limit. -/
structure Config where
  cryptopanicKey : Bool
  openaiKey : Bool
  geminiOk : Bool
  credsOk : Bool
  maxFetchLimit : Nat

/-- External behavior encountered while processing one article: the
summarizer call outcome, the image-generation result, the Telegram HTTP
outcome, and whether the seen-file write succeeds. -/
structure ArticleBeh where
  chat : Except Unit String
  img : Option (List Nat)
  http : HttpBeh
  writeOk : Bool

/-- Outcome of processing one article: a raised Python exception (if any),
the seen-store afterwards, the increment to the published counter, and the
calls made. -/
structure ArtOut where
  err : Option PyErr
  store : SeenStore
  inc : Nat
  evs : List Event

/-- The field extraction of main.py:344-346 — `j.get("summary", title)`,
`j.get("caption", title)[:120]`, `j.get("image_prompt", {"scene": title})` —
each `.get` raising `AttributeError` when `j` is not a dict, and the slice
raising `TypeError` when the caption value is not sliceable. -/
def extractFields (j : PyJson) (title : String) :
    Except PyErr (PyJson × PyJson × PyJson) := do
  let summary ← pyDictGet j "summary" (.str title)
  let cap0 ← pyDictGet j "caption" (.str title)
  let caption ← pySliceTo cap0 120
  let image_prompt ← pyDictGet j "image_prompt" (.dict [("scene", .str title)])
  return (summary, caption, image_prompt)

/-- The per-article body of the `for` loop in `process_once`
(main.py:327-367): derive the identifier, skip silently when it is empty or
already seen; otherwise enrich, generate the image (best effort), post to
Telegram, and mark seen exactly when the posted result is truthy
(`if res:`, main.py:361). -/
def process_article (cfg : Config) (jloads : String → Option PyJson)
    (b : ArticleBeh) (idx : Nat) (item : Article) (st : SeenStore) : ArtOut :=
  let nid := deriveId item
  if nid = "" then ⟨none, st, 0, []⟩
  else if is_seen_file st nid then ⟨none, st, 0, []⟩
  else
    let title := item.title.getD "Untitled"
    let url := item.url.getD ""
    let excerpt := pyStrSlice (pyOrStr item.body (pyOrStr item.excerpt "")) 1000
    let j := ask_chatgpt_for_json cfg.openaiKey jloads b.chat title url excerpt
    match extractFields j title with
    | .error e => ⟨some e, st, 0, [.enrichCall idx]⟩
    | .ok (summary, _caption, image_prompt) =>
      let tg_caption :=
        pyStrOf summary ++ "\n\n🔗 <a href=\x22" ++ url ++ "\x22>Read more</a>"
      let img := generate_image_via_gemini cfg.geminiOk b.img image_prompt
      let res := post_to_telegram cfg.credsOk img b.http
      let _ := tg_caption
      if pyTruthyJ res then
        ⟨none, mark_seen b.writeOk nid st, 1,
         [.enrichCall idx, .imageCall idx, .postCall idx res, .markSeen idx nid]⟩
      else
        ⟨none, st, 0, [.enrichCall idx, .imageCall idx, .postCall idx res]⟩

/-- Observable outcome of one cycle: the returned published count (or the
exception that escaped), the seen-store afterwards, and the calls made. -/
structure RunOut where
  retVal : Except PyErr Nat
  store : SeenStore
  events : List Event

/-- The `for item in news_items` loop of `process_once` (main.py:327-369):
articles are processed in fetch order, threading the seen-store and the
published counter; an exception raised while processing one article aborts
the whole cycle (there is no per-article handler around the loop body). -/
def process_once_items (cfg : Config) (jloads : String → Option PyJson)
    (beh : Nat → ArticleBeh) :
    List Article → Nat → SeenStore → Nat → List Event → RunOut
  | [], _, st, posted, evs => ⟨.ok posted, st, evs⟩
  | it :: rest, idx, st, posted, evs =>
    match process_article cfg jloads (beh idx) idx it st with
    | ⟨some e, store2, _, evs2⟩ => ⟨.error e, store2, evs ++ evs2⟩
    | ⟨none, store2, inc, evs2⟩ =>
      process_once_items cfg jloads beh rest (idx + 1) store2 (posted + inc) (evs ++ evs2)

/-- `process_once()` (main.py:319-369): fetch up to `MAX_FETCH_LIMIT`
articles with backoff (`max_attempts` keeps its default of 6), return 0 on
an empty fetch (main.py:322-324), otherwise run the per-article loop and
return the published count. -/
def process_once (cfg : Config) (jloads : String → Option PyJson)
    (fetchEnv : Nat → FetchResp) (beh : Nat → ArticleBeh)
    (st0 : SeenStore) : RunOut :=
  let news_items := (fetch_news_with_backoff cfg.cryptopanicKey fetchEnv cfg.maxFetchLimit 6).results
  if news_items.isEmpty then ⟨.ok 0, st0, []⟩
  else process_once_items cfg jloads beh news_items 0 st0 0 []

/-- Is this event a seen-mark for the article at position `i`? -/
def isMarkAt (i : Nat) : Event → Bool
  | .markSeen j _ => j == i
  | _ => false

/-- Is this event a publish call for position `i` whose result the
orchestrator treats as success (`if res:`)? -/
def isTruthyPostAt (i : Nat) : Event → Bool
  | .postCall j r => j == i && pyTruthyJ r
  | _ => false

/-- Is this event a publish call for position `i` that returned a value
other than `None`? -/
def isNonNullPostAt (i : Nat) : Event → Bool
  | .postCall j r =>
    j == i &&
      (match r with
       | .null => false
       | _ => true)
  | _ => false

/-- Is this event a seen-mark of the identifier `nid`? -/
def isMarkOf (nid : String) : Event → Bool
  | .markSeen _ m => m == nid
  | _ => false

/-- Is this event a publish call whose result is truthy (counted as a
successful publication)? -/
def isTruthyPost : Event → Bool
  | .postCall _ r => pyTruthyJ r
  | _ => false

/-- A summarizer JSON value the orchestrator can consume without raising:
a JSON object whose `caption` value, when present, is sliceable (a string
or a list).  Every fallback dict built by `ask_chatgpt_for_json` satisfies
this; a parsed non-dict value (or a dict with, say, a numeric caption) does
not, and crashes `process_once` at main.py:344-345. -/
def goodJ : PyJson → Bool
  | .dict kvs =>
    (match kvs.lookup "caption" with
     | some (.str _) => true
     | some (.arr _) => true
     | some _ => false
     | none => true)
  | _ => false

/- ------------------------------------------------------------------ -/
/- Helper lemmas                                                      -/
/- ------------------------------------------------------------------ -/

theorem beq_comm_str (a x : String) : (a == x) = (x == a) := by
  by_cases h : a = x
  · subst h; rfl
  · rw [beq_eq_false_iff_ne.mpr h, beq_eq_false_iff_ne.mpr (Ne.symm h)]

theorem seenAdd_contains (a x : String) (l : List String) :
    (seenAdd a l).contains x = (l.contains x || a == x) := by
  unfold seenAdd
  split
  · next h =>
    by_cases hax : a = x
    · subst hax; rw [h]; simp
    · rw [beq_eq_false_iff_ne.mpr hax, Bool.or_false]
  · show (a :: l).contains x = _
    simp only [List.contains_cons]
    rw [beq_comm_str a x, Bool.or_comm]

theorem seenAdd_self (a : String) (l : List String) :
    (seenAdd a l).contains a = true := by
  rw [seenAdd_contains]; simp

theorem seenAdd_idem (a : String) (l : List String) :
    seenAdd a (seenAdd a l) = seenAdd a l := by
  have h : (seenAdd a l).contains a = true := seenAdd_self a l
  rw [show seenAdd a (seenAdd a l)
        = if (seenAdd a l).contains a then seenAdd a l else a :: seenAdd a l from rfl, h]
  simp


theorem fetchStep_retry_inventory (limit backoff : Nat) (r : FetchResp)
    (ev : SleepEv) (nb : Nat) (h : fetchStep limit backoff r = .retry ev nb) :
    nb = min 300 (backoff * 2) ∧
      (ev = ⟨.backoffKind, (backoff : Int)⟩ ∨ ev.kind = .retryAfterKind) := by
  cases r with
  | transportError =>
    simp only [fetchStep, StepRes.retry.injEq] at h
    rcases h with ⟨h1, h2⟩
    subst h1; subst h2
    exact ⟨rfl, Or.inl rfl⟩
  | resp status hdr body =>
    by_cases h429 : status = 429
    · subst h429
      cases hdr with
      | none =>
        simp [fetchStep] at h
        rcases h with ⟨h1, h2⟩
        subst h1; subst h2
        exact ⟨rfl, Or.inl rfl⟩
      | some s =>
        by_cases hs : s = ""
        · subst hs
          simp [fetchStep] at h
          rcases h with ⟨h1, h2⟩
          subst h1; subst h2
          exact ⟨rfl, Or.inl rfl⟩
        · cases hp : pyIntParse s with
          | none =>
            simp [fetchStep, hs, hp] at h
            rcases h with ⟨h1, h2⟩
            subst h1; subst h2
            exact ⟨rfl, Or.inl rfl⟩
          | some n =>
            by_cases hn : 0 ≤ n
            · simp [fetchStep, hs, hp, hn] at h
              rcases h with ⟨h1, h2⟩
              subst h1; subst h2
              exact ⟨rfl, Or.inr rfl⟩
            · simp [fetchStep, hs, hp, hn] at h
              rcases h with ⟨h1, h2⟩
              subst h1; subst h2
              exact ⟨rfl, Or.inl rfl⟩
    · by_cases h45 : 400 ≤ status ∧ status < 600
      · by_cases h500 : 500 ≤ status
        · simp [fetchStep, h429, h45, h500] at h
          rcases h with ⟨h1, h2⟩
          subst h1; subst h2
          exact ⟨rfl, Or.inl rfl⟩
        · simp [fetchStep, h429, h45, h500] at h
      · cases body with
        | invalid =>
          simp [fetchStep, h429, h45] at h
          rcases h with ⟨h1, h2⟩
          subst h1; subst h2
          exact ⟨rfl, Or.inl rfl⟩
        | list xs =>
          by_cases he : xs.isEmpty <;> simp [fetchStep, h429, h45, he] at h
        | obj rs =>
          by_cases he : (rs.getD []).isEmpty <;> simp [fetchStep, h429, h45, he] at h

theorem fetchStep_429_retries (limit backoff : Nat) (hdr : Option String)
    (body : FetchBody) :
    ∃ ev nb, fetchStep limit backoff (.resp 429 hdr body) = .retry ev nb := by
  cases hdr with
  | none => exact ⟨⟨.backoffKind, (backoff : Int)⟩, min 300 (backoff * 2), rfl⟩
  | some s =>
    by_cases hs : s = ""
    · subst hs
      exact ⟨⟨.backoffKind, (backoff : Int)⟩, min 300 (backoff * 2), rfl⟩
    · cases hp : pyIntParse s with
      | none =>
        exact ⟨⟨.backoffKind, (backoff : Int)⟩, min 300 (backoff * 2),
          by simp [fetchStep, hs, hp]⟩
      | some n =>
        by_cases hn : 0 ≤ n
        · exact ⟨⟨.retryAfterKind, n⟩, min 300 (backoff * 2),
            by simp [fetchStep, hs, hp, hn]⟩
        · exact ⟨⟨.backoffKind, (backoff : Int)⟩, min 300 (backoff * 2),
            by simp [fetchStep, hs, hp, hn]⟩

theorem fetchStep_retryable_retry (limit backoff : Nat) (r : FetchResp)
    (h : retryableB r = true) :
    ∃ ev nb, fetchStep limit backoff r = .retry ev nb := by
  cases r with
  | transportError =>
    exact ⟨⟨.backoffKind, (backoff : Int)⟩, min 300 (backoff * 2), rfl⟩
  | resp status hdr body =>
    by_cases h429 : status = 429
    · subst h429; exact fetchStep_429_retries limit backoff hdr body
    · by_cases h45 : 400 ≤ status ∧ status < 600
      · have h500 : 500 ≤ status := by
          simpa [retryableB, h429, h45] using h
        exact ⟨⟨.backoffKind, (backoff : Int)⟩, min 300 (backoff * 2),
          by simp [fetchStep, h429, h45, h500]⟩
      · cases body with
        | invalid =>
          exact ⟨⟨.backoffKind, (backoff : Int)⟩, min 300 (backoff * 2),
            by simp [fetchStep, h429, h45]⟩
        | list xs => simp [retryableB, h429, h45] at h
        | obj rs => simp [retryableB, h429, h45] at h

theorem fetchGo_calls_le (env : Nat → FetchResp) (limit : Nat) :
    ∀ (fuel attempt backoff : Nat) (sleeps : List SleepEv),
      (fetchGo env limit fuel attempt backoff sleeps).calls ≤ attempt + fuel := by
  intro fuel
  induction fuel with
  | zero => intro attempt backoff sleeps; simp [fetchGo]
  | succ n ih =>
    intro attempt backoff sleeps
    simp only [fetchGo]
    cases hs : fetchStep limit backoff (env attempt) with
    | done rs =>
      show attempt + 1 ≤ attempt + (n + 1)
      omega
    | retry ev nb =>
      have := ih (attempt + 1) nb (sleeps ++ [ev])
      calc (fetchGo env limit n (attempt + 1) nb (sleeps ++ [ev])).calls
          ≤ attempt + 1 + n := this
        _ = attempt + (n + 1) := by omega

theorem fetchGo_sleeps_bound (env : Nat → FetchResp) (limit : Nat) :
    ∀ (fuel attempt backoff : Nat) (sleeps : List SleepEv),
      backoff ≤ 300 →
      (∀ e ∈ sleeps, e.kind = .backoffKind → e.secs ≤ 300) →
      ∀ e ∈ (fetchGo env limit fuel attempt backoff sleeps).sleeps,
        e.kind = .backoffKind → e.secs ≤ 300 := by
  intro fuel
  induction fuel with
  | zero => intro attempt backoff sleeps _ hacc; simpa [fetchGo] using hacc
  | succ n ih =>
    intro attempt backoff sleeps hb hacc
    simp only [fetchGo]
    cases hs : fetchStep limit backoff (env attempt) with
    | done rs => simpa using hacc
    | retry ev nb =>
      obtain ⟨hnb, hev⟩ := fetchStep_retry_inventory limit backoff _ ev nb hs
      apply ih (attempt + 1) nb (sleeps ++ [ev])
      · rw [hnb]; exact Nat.min_le_left _ _
      · intro e he hk
        rcases List.mem_append.mp he with he | he
        · exact hacc e he hk
        · rcases List.mem_singleton.mp he with rfl
          rcases hev with hev | hev
          · rw [hev]
            show (backoff : Int) ≤ 300
            exact_mod_cast hb
          · rw [hk] at hev
            cases hev

theorem fetchGo_all_retryable (env : Nat → FetchResp) (limit : Nat) :
    ∀ (fuel attempt backoff : Nat) (sleeps : List SleepEv),
      (∀ i, attempt ≤ i → i < attempt + fuel → retryableB (env i) = true) →
      (fetchGo env limit fuel attempt backoff sleeps).results = [] ∧
        (fetchGo env limit fuel attempt backoff sleeps).calls = attempt + fuel := by
  intro fuel
  induction fuel with
  | zero => intro attempt backoff sleeps _; simp [fetchGo]
  | succ n ih =>
    intro attempt backoff sleeps h
    obtain ⟨ev, nb, hs⟩ :=
      fetchStep_retryable_retry limit backoff (env attempt)
        (h attempt (Nat.le_refl _) (by omega))
    simp only [fetchGo, hs]
    have hrec := ih (attempt + 1) nb (sleeps ++ [ev]) (fun i h1 h2 => h i (by omega) (by omega))
    exact ⟨hrec.1, by omega⟩

/- ------------------------------------------------------------------ -/
/- Claims C3, C4, C5: the fetch retry policy                          -/
/- ------------------------------------------------------------------ -/

/-- C3: for every limit and maxAttempts, `fetch_news_with_backoff` issues at
most `maxAttempts` HTTP attempts; every backoff delay slept at a retry step
is at most 300 seconds (delays taken verbatim from a `Retry-After` header
override the backoff and are governed by C4); and when every attempt within
the budget fails retryably, the fetch returns an empty sequence rather than
raising (the model is total: the Python loop catches every exception). -/
theorem c3_backoff_and_attempt_bounds (keyPresent : Bool) (env : Nat → FetchResp)
    (limit maxAttempts : Nat) :
    (fetch_news_with_backoff keyPresent env limit maxAttempts).calls ≤ maxAttempts ∧
    (∀ e ∈ (fetch_news_with_backoff keyPresent env limit maxAttempts).sleeps,
        e.kind = .backoffKind → e.secs ≤ 300) ∧
    ((∀ i, i < maxAttempts → retryableB (env i) = true) →
        (fetch_news_with_backoff keyPresent env limit maxAttempts).results = []) := by
  cases keyPresent with
  | false => refine ⟨?_, ?_, ?_⟩ <;> simp [fetch_news_with_backoff]
  | true =>
    have heq : fetch_news_with_backoff true env limit maxAttempts
        = fetchGo env limit maxAttempts 0 2 [] := rfl
    rw [heq]
    refine ⟨?_, ?_, ?_⟩
    · simpa using fetchGo_calls_le env limit maxAttempts 0 2 []
    · exact fetchGo_sleeps_bound env limit maxAttempts 0 2 [] (by omega) (by simp)
    · intro hall
      exact (fetchGo_all_retryable env limit maxAttempts 0 2 []
        (fun i _ h2 => hall i (by omega))).1

/-- Witness for C3 at a concrete input: six transport failures exhaust the
attempt budget and the fetch returns the empty list. -/
theorem c3_witness :
    (fetch_news_with_backoff true (fun _ => FetchResp.transportError) 10 6).results = [] :=
  (c3_backoff_and_attempt_bounds true (fun _ => FetchResp.transportError) 10 6).2.2
    (fun _ _ => rfl)

/-- C4 (amended): on HTTP 429, when the `Retry-After` header is present,
non-empty and parses as a **nonnegative** integer N, the fetcher sleeps
exactly N seconds (overriding the exponential value); when the header is
absent, empty, unparseable, or negative it sleeps the current backoff value
(a negative N makes `time.sleep` raise `ValueError`, which the generic
handler catches, sleeping the backoff); in either case the retry increments
the attempt counter and doubles the backoff capped at 300s. -/
theorem c4_retry_after_amended (limit backoff : Nat) (hdr : Option String)
    (body : FetchBody) :
    (∀ s n, hdr = some s → s ≠ "" → pyIntParse s = some n → 0 ≤ n →
        fetchStep limit backoff (.resp 429 hdr body)
          = .retry ⟨.retryAfterKind, n⟩ (min 300 (backoff * 2))) ∧
    ((hdr = none ∨ ∃ s, hdr = some s ∧
          (s = "" ∨ pyIntParse s = none ∨ ∃ n, pyIntParse s = some n ∧ n < 0)) →
        fetchStep limit backoff (.resp 429 hdr body)
          = .retry ⟨.backoffKind, (backoff : Int)⟩ (min 300 (backoff * 2))) ∧
    (∀ (env : Nat → FetchResp) (fuel attempt : Nat) (sleeps : List SleepEv)
        (ev : SleepEv) (nb : Nat),
        fetchStep limit backoff (env attempt) = .retry ev nb →
        fetchGo env limit (fuel + 1) attempt backoff sleeps
          = fetchGo env limit fuel (attempt + 1) nb (sleeps ++ [ev])) := by
  refine ⟨?_, ?_, ?_⟩
  · intro s n hh hs hp hn
    subst hh
    simp [fetchStep, hs, hp, hn]
  · intro hcase
    rcases hcase with hh | ⟨s, hh, hrest⟩
    · subst hh; rfl
    · subst hh
      by_cases hs : s = ""
      · subst hs; rfl
      · rcases hrest with hrest | hrest | ⟨n, hp, hn⟩
        · exact absurd hrest hs
        · simp [fetchStep, hs, hrest]
        · have hn2 : ¬ 0 ≤ n := by omega
          simp [fetchStep, hs, hp, hn2]
  · intro env fuel attempt sleeps ev nb hstep
    simp only [fetchGo, hstep]

/-- Witness for the amended C4 at a concrete input: `Retry-After: 7` on a
429 makes the step sleep exactly 7 seconds and double the backoff. -/
theorem c4_witness :
    fetchStep 10 2 (.resp 429 (some "7") (.obj none)) = .retry ⟨.retryAfterKind, 7⟩ 4 :=
  (c4_retry_after_amended 10 2 (some "7") (.obj none)).1 "7" 7 rfl (by decide) rfl
    (by decide)

/-- Counterexample to C4 as stated: `Retry-After: -1` is parseable as the
integer -1, but the code does not (and cannot) sleep exactly -1 seconds:
`time.sleep(-1)` raises `ValueError`, the generic handler catches it and
sleeps the current backoff, 2 seconds. -/
theorem c4_counterexample :
    pyIntParse "-1" = some (-1) ∧
    fetchStep 10 2 (.resp 429 (some "-1") (.obj none)) = .retry ⟨.backoffKind, 2⟩ 4 ∧
    fetchStep 10 2 (.resp 429 (some "-1") (.obj none)) ≠ .retry ⟨.retryAfterKind, -1⟩ 4 :=
  ⟨rfl, rfl, by decide⟩

/-- C5: for every HTTP error response (status 400-599) from the feed
endpoint, a 5xx status causes a backoff sleep and a retry (as does a 429,
third conjunct), while any other HTTP error status makes the loop return
the empty sequence immediately, with no further attempts (the loop result
is final after `attempt + 1` calls). -/
theorem c5_http_error_classes (limit backoff status : Nat) (hdr : Option String)
    (body : FetchBody) (h4 : 400 ≤ status) (h6 : status < 600) (h429 : status ≠ 429) :
    (500 ≤ status →
        fetchStep limit backoff (.resp status hdr body)
          = .retry ⟨.backoffKind, (backoff : Int)⟩ (min 300 (backoff * 2))) ∧
    (status < 500 → fetchStep limit backoff (.resp status hdr body) = .done []) ∧
    (∀ hdr2 body2, ∃ ev nb, fetchStep limit backoff (.resp 429 hdr2 body2) = .retry ev nb) ∧
    (∀ (env : Nat → FetchResp) (fuel attempt : Nat) (sleeps : List SleepEv),
        env attempt = .resp status hdr body → status < 500 →
        fetchGo env limit (fuel + 1) attempt backoff sleeps
          = ⟨[], sleeps, attempt + 1, false⟩) := by
  refine ⟨?_, ?_, ?_, ?_⟩
  · intro h5
    simp [fetchStep, h429, h4, h6, h5]
  · intro h5
    have h5n : ¬ 500 ≤ status := by omega
    simp [fetchStep, h429, h4, h6, h5n]
  · intro hdr2 body2
    exact fetchStep_429_retries limit backoff hdr2 body2
  · intro env fuel attempt sleeps henv h5
    have h5n : ¬ 500 ≤ status := by omega
    have hstep : fetchStep limit backoff (env attempt) = .done [] := by
      rw [henv]; simp [fetchStep, h429, h4, h6, h5n]
    simp only [fetchGo, hstep]

/-- Witness for C5 at concrete statuses: 503 retries with a backoff sleep,
404 aborts with an empty result. -/
theorem c5_witness :
    fetchStep 10 2 (.resp 503 none (.obj none)) = .retry ⟨.backoffKind, 2⟩ 4 ∧
    fetchStep 10 2 (.resp 404 none (.obj none)) = .done [] :=
  ⟨(c5_http_error_classes 10 2 503 none (.obj none) (by decide) (by decide)
      (by decide)).1 (by decide),
   (c5_http_error_classes 10 2 404 none (.obj none) (by decide) (by decide)
      (by decide)).2.1 (by decide)⟩

/- ------------------------------------------------------------------ -/
/- Claims C6, C8, C9, C10                                             -/
/- ------------------------------------------------------------------ -/

/-- C6: an article whose derived identifier (fallback order id, uuid, url)
is empty, or whose identifier is already in the seen-set when it is
reached, is skipped with no side effects at all: no enrichment call, no
image-generation call, no publish call, no seen-set insertion, and an
unchanged store. -/
theorem c6_skip_no_side_effects (cfg : Config) (jloads : String → Option PyJson)
    (b : ArticleBeh) (idx : Nat) (item : Article) (st : SeenStore)
    (h : deriveId item = "" ∨ is_seen_file st (deriveId item) = true) :
    process_article cfg jloads b idx item st = ⟨none, st, 0, []⟩ := by
  by_cases h0 : deriveId item = ""
  · simp [process_article, h0]
  · rcases h with h | h
    · exact absurd h h0
    · simp [process_article, h0, h]

/-- Witness for C6 at a concrete input: an article with empty id, uuid and
url is skipped entirely. -/
theorem c6_witness :
    process_article ⟨true, true, true, true, 15⟩ (fun _ => none)
        ⟨.ok "x", none, .resp 200 none, true⟩ 0 ⟨none, none, none, none, none, none⟩
        ⟨[], []⟩
      = ⟨none, ⟨[], []⟩, 0, []⟩ :=
  c6_skip_no_side_effects _ _ _ _ _ _ (Or.inl rfl)

/-- Counterexample to C8 as stated: under the Redis backend (main.py:96),
`is_seen` forwards the unguarded `redis_client.sismember` call, so a
backend error at call time propagates as a raised exception — the fallback
to the file backend happens only at startup (main.py:99-102), not per
call. -/
theorem c8_counterexample :
    is_seen (.redisB (fun _ => .error ())) "x" = .error () := rfl

/-- C8 (amended): the file-backend `is_seen` never raises — it is a pure
membership test on the in-memory set — while the Redis-backend `is_seen` is
exactly the client call, so a per-call backend error propagates to the
caller at runtime. -/
theorem c8_amended :
    (∀ (s : List String) (nid : String), is_seen (.fileB s) nid = .ok (s.contains nid)) ∧
    (∀ (f : String → Except Unit Bool) (nid : String), is_seen (.redisB f) nid = f nid) :=
  ⟨fun _ _ => rfl, fun _ _ => rfl⟩

/-- C9: `mark_seen` is idempotent — marking the same identifier twice (with
the same write outcome) leaves the whole store, and (for any write
outcomes) the in-memory seen-set, identical to marking it once — and
`is_seen` is true after any `mark_seen`, including when the persistence
write fails, since the in-memory set remains authoritative. -/
theorem c9_mark_seen_idempotent (w w1 w2 : Bool) (nid : String) (st : SeenStore) :
    mark_seen w nid (mark_seen w nid st) = mark_seen w nid st ∧
    (mark_seen w2 nid (mark_seen w1 nid st)).mem = (mark_seen w1 nid st).mem ∧
    is_seen_file (mark_seen w1 nid st) nid = true := by
  refine ⟨?_, ?_, ?_⟩
  · cases w with
    | true => simp [mark_seen, seenAdd_idem]
    | false => simp [mark_seen, seenAdd_idem]
  · simp [mark_seen, seenAdd_idem]
  · show (seenAdd nid st.mem).contains nid = true
    exact seenAdd_self nid st.mem

/-- C10: `post_to_telegram` reports failure (returns `None`) whenever the
HTTP response body is not parseable as JSON, even when the request itself
succeeded with a 2xx status; and in that case the article being processed
is not marked seen — the store is unchanged, so the identifier stays
eligible for a later cycle even though the message may have been
delivered. -/
theorem c10_unparseable_body :
    (∀ (credsOk : Bool) (img : Option (List Nat)) (status : Nat),
        200 ≤ status → status < 300 →
        post_to_telegram credsOk img (.resp status none) = .null) ∧
    (∀ (cfg : Config) (jloads : String → Option PyJson) (b : ArticleBeh)
        (idx : Nat) (item : Article) (st : SeenStore) (status : Nat),
        b.http = .resp status none → 200 ≤ status → status < 300 →
        (process_article cfg jloads b idx item st).store = st ∧
        (process_article cfg jloads b idx item st).evs.any (isMarkAt idx) = false) := by
  have hpost : ∀ (credsOk : Bool) (img : Option (List Nat)) (status : Nat),
      200 ≤ status → status < 300 →
      post_to_telegram credsOk img (.resp status none) = .null := by
    intro credsOk img status h2 h3
    cases credsOk with
    | false => rfl
    | true =>
      have hns : ¬ (400 ≤ status ∧ status < 600) := by omega
      simp [post_to_telegram, hns]
  refine ⟨hpost, ?_⟩
  intro cfg jloads b idx item st status hb h2 h3
  by_cases h0 : deriveId item = ""
  · simp [process_article, h0]
  · by_cases hseen : is_seen_file st (deriveId item) = true
    · simp [process_article, h0, hseen]
    · cases hE : extractFields
          (ask_chatgpt_for_json cfg.openaiKey jloads b.chat (item.title.getD "Untitled")
            (item.url.getD "")
            (pyStrSlice (pyOrStr item.body (pyOrStr item.excerpt "")) 1000))
          (item.title.getD "Untitled") with
      | error e =>
        simp [process_article, h0, hseen, hE, isMarkAt]
      | ok trip =>
        obtain ⟨s1, c1, i1⟩ := trip
        have hres : post_to_telegram cfg.credsOk
            (generate_image_via_gemini cfg.geminiOk b.img i1) b.http = .null := by
          rw [hb]; exact hpost _ _ _ h2 h3
        simp [process_article, h0, hseen, hE, hres, pyTruthyJ, isMarkAt]

/-- Witness for C10 at a concrete input: a 200 response with an unparseable
body yields `None`. -/
theorem c10_witness :
    post_to_telegram true none (.resp 200 none) = PyJson.null :=
  c10_unparseable_body.1 true none 200 (by decide) (by decide)

/- ------------------------------------------------------------------ -/
/- Claim C7: summarizer fallback completeness                         -/
/- ------------------------------------------------------------------ -/

theorem pyStrSlice_length_le (s : String) (n : Nat) : (pyStrSlice s n).length ≤ n := by
  show (s.toList.take n).length ≤ n
  simp [List.length_take]

theorem pyStrSlice_ne_empty (s : String) (n : Nat) (hs : s ≠ "") (hn : 0 < n) :
    pyStrSlice s n ≠ "" := by
  intro hc
  apply hs
  have hl : s.toList.take n = [] := congrArg String.data hc
  cases s with
  | mk data =>
    cases data with
    | nil => rfl
    | cons c t =>
      cases n with
      | zero => exact absurd hn (by omega)
      | succ m => exact absurd hl (by simp)

/-- Counterexample to C7 as stated: a whitespace-only summarizer response
strips to the empty string, which is not valid JSON (`json.loads` raises on
it — modelled by the parse oracle returning `none`) and contains no
`\x7b...\x7d` substring; the fallback at main.py:227 then uses `txt[:800]`
as the summary, which is the **empty** string, not a non-empty summary.
The caption and image-prompt parts of the claim do hold. -/
theorem c7_counterexample :
    pyStrip " " = "" ∧
    braceSlice (pyStrip " ") = none ∧
    ask_chatgpt_for_json true (fun _ => none) (.ok " ") "T" "u" "e"
      = .dict [("summary", .str ""), ("caption", .str "T"),
               ("image_prompt", .dict [("scene", .str "T")])] :=
  ⟨rfl, rfl, rfl⟩

/-- C7 (amended): for every summarizer response text that is not valid JSON
(the parse oracle rejects it) and contains no extractable brace substring,
the enrichment result is exactly the text fallback of main.py:227 — the
summary is the stripped response text capped at 800 characters (hence
non-empty whenever the stripped response text is non-empty), the caption is
the title capped at 120 characters (length at most 120), and the image
prompt is the non-null object `{"scene": title}`. -/
theorem c7_fallback_completeness (jloads : String → Option PyJson)
    (content title url excerpt : String)
    (hparse : jloads (pyStrip content) = none)
    (hbrace : braceSlice (pyStrip content) = none) :
    ask_chatgpt_for_json true jloads (.ok content) title url excerpt
      = enrich_text_fallback (pyStrip content) title ∧
    (pyStrip content ≠ "" → pyStrSlice (pyStrip content) 800 ≠ "") ∧
    (pyStrSlice title 120).length ≤ 120 ∧
    pyDictGet (enrich_text_fallback (pyStrip content) title) "image_prompt" .null
      = .ok (.dict [("scene", .str title)]) := by
  refine ⟨?_, ?_, ?_, rfl⟩
  · simp [ask_chatgpt_for_json, hparse, hbrace]
  · intro h
    exact pyStrSlice_ne_empty _ 800 h (by omega)
  · exact pyStrSlice_length_le title 120

/-- Witness for the amended C7 at a concrete input: the unparseable,
brace-free response `"x"` yields the text fallback. -/
theorem c7_witness :
    ask_chatgpt_for_json true (fun _ => none) (.ok "x") "T" "u" "e"
      = enrich_text_fallback (pyStrip "x") "T" :=
  (c7_fallback_completeness (fun _ => none) "x" "T" "u" "e" rfl rfl).1

/- ------------------------------------------------------------------ -/
/- Per-article lemmas for claims C1 and C2                            -/
/- ------------------------------------------------------------------ -/

theorem process_article_mark_eq_post (cfg : Config) (jloads : String → Option PyJson)
    (b : ArticleBeh) (idx : Nat) (item : Article) (st : SeenStore) (i : Nat) :
    ((process_article cfg jloads b idx item st).evs.any (isMarkAt i))
      = ((process_article cfg jloads b idx item st).evs.any (isTruthyPostAt i)) := by
  by_cases h0 : deriveId item = ""
  · simp [process_article, h0]
  · by_cases hseen : is_seen_file st (deriveId item) = true
    · simp [process_article, h0, hseen]
    · cases hE : extractFields
          (ask_chatgpt_for_json cfg.openaiKey jloads b.chat (item.title.getD "Untitled")
            (item.url.getD "")
            (pyStrSlice (pyOrStr item.body (pyOrStr item.excerpt "")) 1000))
          (item.title.getD "Untitled") with
      | error e => simp [process_article, h0, hseen, hE, isMarkAt, isTruthyPostAt]
      | ok trip =>
        obtain ⟨s1, c1, i1⟩ := trip
        by_cases ht : pyTruthyJ (post_to_telegram cfg.credsOk
            (generate_image_via_gemini cfg.geminiOk b.img i1) b.http) = true
        · simp [process_article, h0, hseen, hE, ht, isMarkAt, isTruthyPostAt]
        · simp [process_article, h0, hseen, hE, ht, isMarkAt, isTruthyPostAt]

theorem process_article_store_contains (cfg : Config) (jloads : String → Option PyJson)
    (b : ArticleBeh) (idx : Nat) (item : Article) (st : SeenStore) (x : String) :
    (process_article cfg jloads b idx item st).store.mem.contains x
      = (st.mem.contains x
          || (process_article cfg jloads b idx item st).evs.any (isMarkOf x)) := by
  by_cases h0 : deriveId item = ""
  · simp [process_article, h0]
  · by_cases hseen : is_seen_file st (deriveId item) = true
    · simp [process_article, h0, hseen]
    · cases hE : extractFields
          (ask_chatgpt_for_json cfg.openaiKey jloads b.chat (item.title.getD "Untitled")
            (item.url.getD "")
            (pyStrSlice (pyOrStr item.body (pyOrStr item.excerpt "")) 1000))
          (item.title.getD "Untitled") with
      | error e => simp [process_article, h0, hseen, hE, isMarkOf]
      | ok trip =>
        obtain ⟨s1, c1, i1⟩ := trip
        by_cases ht : pyTruthyJ (post_to_telegram cfg.credsOk
            (generate_image_via_gemini cfg.geminiOk b.img i1) b.http) = true
        · have hres : process_article cfg jloads b idx item st
              = ⟨none, mark_seen b.writeOk (deriveId item) st, 1,
                 [.enrichCall idx, .imageCall idx,
                  .postCall idx (post_to_telegram cfg.credsOk
                    (generate_image_via_gemini cfg.geminiOk b.img i1) b.http),
                  .markSeen idx (deriveId item)]⟩ := by
            simp [process_article, h0, hseen, hE, ht]
          rw [hres]
          show (seenAdd (deriveId item) st.mem).contains x = _
          rw [seenAdd_contains]
          simp [isMarkOf]
        · simp [process_article, h0, hseen, hE, ht, isMarkOf]

theorem goodJ_enrich_fallback (t u : String) : goodJ (enrich_fallback t u) = true := rfl

theorem goodJ_text_fallback (txt t : String) : goodJ (enrich_text_fallback txt t) = true := rfl

theorem ask_good (k : Bool) (jloads : String → Option PyJson)
    (chat : Except Unit String) (t u e : String)
    (hj : ∀ s v, jloads s = some v → goodJ v = true) :
    goodJ (ask_chatgpt_for_json k jloads chat t u e) = true := by
  cases k with
  | false => exact goodJ_enrich_fallback t u
  | true =>
    cases chat with
    | error e2 => exact goodJ_enrich_fallback t u
    | ok content =>
      cases hp : jloads (pyStrip content) with
      | some j =>
        have heq : ask_chatgpt_for_json true jloads (.ok content) t u e = j := by
          simp [ask_chatgpt_for_json, hp]
        rw [heq]
        exact hj _ _ hp
      | none =>
        cases hb : braceSlice (pyStrip content) with
        | none =>
          have heq : ask_chatgpt_for_json true jloads (.ok content) t u e
              = enrich_text_fallback (pyStrip content) t := by
            simp [ask_chatgpt_for_json, hp, hb]
          rw [heq]
          exact goodJ_text_fallback _ _
        | some sub =>
          cases hp2 : jloads sub with
          | some j =>
            have heq : ask_chatgpt_for_json true jloads (.ok content) t u e = j := by
              simp [ask_chatgpt_for_json, hp, hb, hp2]
            rw [heq]
            exact hj _ _ hp2
          | none =>
            have heq : ask_chatgpt_for_json true jloads (.ok content) t u e
                = enrich_text_fallback (pyStrip content) t := by
              simp [ask_chatgpt_for_json, hp, hb, hp2]
            rw [heq]
            exact goodJ_text_fallback _ _

theorem extractFields_ok_of_good (j : PyJson) (t : String) (h : goodJ j = true) :
    ∃ tr, extractFields j t = .ok tr := by
  cases j with
  | null => simp [goodJ] at h
  | bool b => simp [goodJ] at h
  | num n => simp [goodJ] at h
  | str s => simp [goodJ] at h
  | arr xs => simp [goodJ] at h
  | dict kvs =>
    cases hc : kvs.lookup "caption" with
    | none =>
      refine ⟨((kvs.lookup "summary").getD (.str t), .str (pyStrSlice t 120),
        (kvs.lookup "image_prompt").getD (.dict [("scene", .str t)])), ?_⟩
      simp [extractFields, pyDictGet, hc, pySliceTo]
      rfl
    | some c =>
      cases c with
      | str s2 =>
        refine ⟨((kvs.lookup "summary").getD (.str t), .str (pyStrSlice s2 120),
          (kvs.lookup "image_prompt").getD (.dict [("scene", .str t)])), ?_⟩
        simp [extractFields, pyDictGet, hc, pySliceTo]
        rfl
      | arr xs2 =>
        refine ⟨((kvs.lookup "summary").getD (.str t), .arr (xs2.take 120),
          (kvs.lookup "image_prompt").getD (.dict [("scene", .str t)])), ?_⟩
        simp [extractFields, pyDictGet, hc, pySliceTo]
        rfl
      | null => simp [goodJ, hc] at h
      | bool b2 => simp [goodJ, hc] at h
      | num n2 => simp [goodJ, hc] at h
      | dict kvs2 => simp [goodJ, hc] at h

theorem process_article_ok_count (cfg : Config) (jloads : String → Option PyJson)
    (b : ArticleBeh) (idx : Nat) (item : Article) (st : SeenStore)
    (hj : ∀ s v, jloads s = some v → goodJ v = true) :
    (process_article cfg jloads b idx item st).err = none ∧
    (process_article cfg jloads b idx item st).inc
      = ((process_article cfg jloads b idx item st).evs.filter isTruthyPost).length := by
  by_cases h0 : deriveId item = ""
  · simp [process_article, h0]
  · by_cases hseen : is_seen_file st (deriveId item) = true
    · simp [process_article, h0, hseen]
    · have hgood : goodJ (ask_chatgpt_for_json cfg.openaiKey jloads b.chat
          (item.title.getD "Untitled") (item.url.getD "")
          (pyStrSlice (pyOrStr item.body (pyOrStr item.excerpt "")) 1000)) = true :=
        ask_good _ _ _ _ _ _ hj
      obtain ⟨tr, hE⟩ := extractFields_ok_of_good _ (item.title.getD "Untitled") hgood
      obtain ⟨s1, c1, i1⟩ := tr
      by_cases ht : pyTruthyJ (post_to_telegram cfg.credsOk
          (generate_image_via_gemini cfg.geminiOk b.img i1) b.http) = true
      · simp [process_article, h0, hseen, hE, ht, isTruthyPost]
      · simp [process_article, h0, hseen, hE, ht, isTruthyPost]

theorem process_once_items_trace (cfg : Config) (jloads : String → Option PyJson)
    (beh : Nat → ArticleBeh) :
    ∀ (items : List Article) (idx : Nat) (st : SeenStore) (posted : Nat)
      (evs0 : List Event),
      ∃ newEvs,
        (process_once_items cfg jloads beh items idx st posted evs0).events
          = evs0 ++ newEvs ∧
        (∀ i, newEvs.any (isMarkAt i) = newEvs.any (isTruthyPostAt i)) ∧
        (∀ x, (process_once_items cfg jloads beh items idx st posted evs0).store.mem.contains x
            = (st.mem.contains x || newEvs.any (isMarkOf x))) := by
  intro items
  induction items with
  | nil =>
    intro idx st posted evs0
    exact ⟨[], by simp [process_once_items], by simp, by simp [process_once_items]⟩
  | cons it rest ih =>
    intro idx st posted evs0
    rcases hA : process_article cfg jloads (beh idx) idx it st with ⟨err, store2, inc, evs2⟩
    have hmark : ∀ i, evs2.any (isMarkAt i) = evs2.any (isTruthyPostAt i) := by
      intro i
      have := process_article_mark_eq_post cfg jloads (beh idx) idx it st i
      rw [hA] at this
      exact this
    have hstore : ∀ x, store2.mem.contains x = (st.mem.contains x || evs2.any (isMarkOf x)) := by
      intro x
      have := process_article_store_contains cfg jloads (beh idx) idx it st x
      rw [hA] at this
      exact this
    cases err with
    | some e =>
      refine ⟨evs2, ?_, hmark, ?_⟩
      · simp [process_once_items, hA]
      · intro x
        simp only [process_once_items, hA]
        exact hstore x
    | none =>
      obtain ⟨n2, he2, hm2, hs2⟩ := ih (idx + 1) store2 (posted + inc) (evs0 ++ evs2)
      refine ⟨evs2 ++ n2, ?_, ?_, ?_⟩
      · simp only [process_once_items, hA]
        rw [he2, List.append_assoc]
      · intro i
        rw [List.any_append, List.any_append, hmark i, hm2 i]
      · intro x
        simp only [process_once_items, hA]
        rw [hs2 x, hstore x, List.any_append, Bool.or_assoc]

theorem process_once_items_count (cfg : Config) (jloads : String → Option PyJson)
    (beh : Nat → ArticleBeh)
    (hj : ∀ s v, jloads s = some v → goodJ v = true) :
    ∀ (items : List Article) (idx : Nat) (st : SeenStore) (posted : Nat)
      (evs0 : List Event),
      ∃ newEvs,
        (process_once_items cfg jloads beh items idx st posted evs0).events
          = evs0 ++ newEvs ∧
        (process_once_items cfg jloads beh items idx st posted evs0).retVal
          = .ok (posted + (newEvs.filter isTruthyPost).length) := by
  intro items
  induction items with
  | nil =>
    intro idx st posted evs0
    exact ⟨[], by simp [process_once_items], by simp [process_once_items]⟩
  | cons it rest ih =>
    intro idx st posted evs0
    rcases hA : process_article cfg jloads (beh idx) idx it st with ⟨err, store2, inc, evs2⟩
    have hok := process_article_ok_count cfg jloads (beh idx) idx it st hj
    rw [hA] at hok
    obtain ⟨herr, hinc⟩ := hok
    subst herr
    obtain ⟨n2, he2, hr2⟩ := ih (idx + 1) store2 (posted + inc) (evs0 ++ evs2)
    refine ⟨evs2 ++ n2, ?_, ?_⟩
    · simp only [process_once_items, hA]
      rw [he2, List.append_assoc]
    · simp only [process_once_items, hA]
      rw [hr2, List.filter_append, List.length_append]
      simp only at hinc
      rw [hinc]
      congr 1
      omega

/- ------------------------------------------------------------------ -/
/- Claims C1 and C2: the per-cycle orchestration                      -/
/- ------------------------------------------------------------------ -/

/-- Counterexample to C1 as stated: `post_to_telegram` returns the parsed
response JSON on success (`None` only on failure, cf. C10), so a 2xx
response whose JSON body is the falsy value `\x7b\x7d` makes the publish
call return a non-`None` value — a returned success by the function's own
interface — yet the orchestrator's `if res:` test (main.py:361) treats it
as falsy: `mark_seen` is not invoked and the identifier stays absent. -/
theorem c1_counterexample :
    ((process_once_items ⟨true, true, true, true, 15⟩ (fun _ => none)
        (fun _ => ⟨.ok "x", none, .resp 200 (some (.dict [])), true⟩)
        [⟨some "A1", none, some "https://x/1", some "T", some "B", none⟩]
        0 ⟨[], []⟩ 0 []).events.any (isNonNullPostAt 0)) = true ∧
    ((process_once_items ⟨true, true, true, true, 15⟩ (fun _ => none)
        (fun _ => ⟨.ok "x", none, .resp 200 (some (.dict [])), true⟩)
        [⟨some "A1", none, some "https://x/1", some "T", some "B", none⟩]
        0 ⟨[], []⟩ 0 []).events.any (isMarkAt 0)) = false ∧
    ((process_once_items ⟨true, true, true, true, 15⟩ (fun _ => none)
        (fun _ => ⟨.ok "x", none, .resp 200 (some (.dict [])), true⟩)
        [⟨some "A1", none, some "https://x/1", some "T", some "B", none⟩]
        0 ⟨[], []⟩ 0 []).store.mem.contains "A1") = false :=
  ⟨rfl, rfl, rfl⟩

/-- C1 (amended): in every cycle, for every article position, a seen-mark
is recorded if and only if the publish call at that position returned a
value the orchestrator's `if res:` test accepts (a truthy JSON value); and
the seen-set after the cycle contains exactly the identifiers it contained
before plus those for which such a mark was recorded — so on publish
failure (`None`, falsy) the identifier is left absent. -/
theorem c1_marked_iff_truthy_publish (cfg : Config)
    (jloads : String → Option PyJson) (fetchEnv : Nat → FetchResp)
    (beh : Nat → ArticleBeh) (st0 : SeenStore) :
    (∀ i, (process_once cfg jloads fetchEnv beh st0).events.any (isMarkAt i)
        = (process_once cfg jloads fetchEnv beh st0).events.any (isTruthyPostAt i)) ∧
    (∀ x, (process_once cfg jloads fetchEnv beh st0).store.mem.contains x
        = (st0.mem.contains x
            || (process_once cfg jloads fetchEnv beh st0).events.any (isMarkOf x))) := by
  unfold process_once
  by_cases hI : ((fetch_news_with_backoff cfg.cryptopanicKey fetchEnv
      cfg.maxFetchLimit 6).results).isEmpty = true
  · simp [hI]
  · simp only [hI, Bool.false_eq_true, if_false]
    obtain ⟨newEvs, he, hm, hs⟩ := process_once_items_trace cfg jloads beh
      (fetch_news_with_backoff cfg.cryptopanicKey fetchEnv cfg.maxFetchLimit 6).results
      0 st0 0 []
    constructor
    · intro i
      rw [he]
      simp only [List.nil_append]
      exact hm i
    · intro x
      rw [hs x, he]
      simp only [List.nil_append]

/-- Counterexample to C2 as stated: `ask_chatgpt_for_json` returns whatever
`json.loads` produced, unchecked (main.py:214-215); a summarizer response
of `"[]"` is valid JSON but parses to a list, so `j.get("summary", title)`
at main.py:344 raises `AttributeError`, aborting `process_once` mid-batch:
with two fetched articles, only the first article's enrichment call
happens, the second article is never processed, and no count is
returned. -/
theorem c2_counterexample :
    (fun s => if s == "[]" then some (PyJson.arr []) else none) "[]"
        = some (PyJson.arr []) ∧
    process_once_items ⟨true, true, true, true, 15⟩
        (fun s => if s == "[]" then some (PyJson.arr []) else none)
        (fun _ => ⟨.ok "[]", none, .resp 200 (some (.dict [("ok", .bool true)])), true⟩)
        [⟨some "A1", none, some "https://x/1", some "T", some "B", none⟩,
         ⟨some "A2", none, none, some "T2", none, none⟩]
        0 ⟨[], []⟩ 0 []
      = ⟨.error .attributeError, ⟨[], []⟩, [.enrichCall 0]⟩ :=
  ⟨rfl, rfl⟩

/-- C2 (amended): provided every summarizer response that parses as JSON
parses to an object whose `caption` value, when present, is sliceable (the
values the code consumes without raising), `process_once` never raises or
aborts mid-batch: it processes every article in the fetched batch and
returns the count of successfully published articles (the number of publish
calls whose result was accepted as success). -/
theorem c2_cycle_completes (cfg : Config) (jloads : String → Option PyJson)
    (fetchEnv : Nat → FetchResp) (beh : Nat → ArticleBeh) (st0 : SeenStore)
    (hj : ∀ s v, jloads s = some v → goodJ v = true) :
    (process_once cfg jloads fetchEnv beh st0).retVal
      = .ok (((process_once cfg jloads fetchEnv beh st0).events.filter
          isTruthyPost).length) := by
  unfold process_once
  by_cases hI : ((fetch_news_with_backoff cfg.cryptopanicKey fetchEnv
      cfg.maxFetchLimit 6).results).isEmpty = true
  · simp [hI]
  · simp only [hI, Bool.false_eq_true, if_false]
    obtain ⟨newEvs, he, hr⟩ := process_once_items_count cfg jloads beh hj
      (fetch_news_with_backoff cfg.cryptopanicKey fetchEnv cfg.maxFetchLimit 6).results
      0 st0 0 []
    rw [hr, he]
    simp

/-- Witness for the amended C2 at a concrete input: one article, a
summarizer response that parses as nothing (text fallback), a truthy
Telegram response — the cycle returns count 1. -/
theorem c2_witness :
    (process_once ⟨true, true, true, true, 15⟩ (fun _ => none)
        (fun _ => .resp 200 none
          (.list [⟨some "A1", none, some "https://x/1", some "T", some "B", none⟩]))
        (fun _ => ⟨.ok "x", none, .resp 200 (some (.dict [("ok", .bool true)])), true⟩)
        ⟨[], []⟩).retVal = .ok 1 :=
  (c2_cycle_completes ⟨true, true, true, true, 15⟩ (fun _ => none)
      (fun _ => .resp 200 none
        (.list [⟨some "A1", none, some "https://x/1", some "T", some "B", none⟩]))
      (fun _ => ⟨.ok "x", none, .resp 200 (some (.dict [("ok", .bool true)])), true⟩)
      ⟨[], []⟩ (fun _ _ h => nomatch h)).trans (by rfl)
